import Mathlib

/-!
Verification of the xlog package (cross platform leveled logging: xlog.go,
xlog_windows.go, and the POSIX syslog adapter) against its natural-language
specification.  The Go code is shallowly embedded: io.Writer interface values
become the inductive GoW (which distinguishes the nil interface from a non-nil
interface wrapping a typed nil pointer, the distinction Go itself makes),
io.MultiWriter and log.Logger.Output become executable Lean functions, and the
stateful parts (the default-logger registry, Close, Fatal, the logLock mutex)
become explicit state passing and event traces.
-/

set_option linter.unusedVariables false

namespace Xlog

/-- A concrete, live write endpoint (an os.File, a bytes.Buffer, a connected
syslog or event-log writer, ...).  id is the physical identity of the Go
object (pointer identity); closable records whether the dynamic type also
satisfies io.Closer. -/
structure Endpoint where
  id : Nat
  closable : Bool
deriving DecidableEq, Repr

/-- A Go io.Writer interface value.  Go distinguishes the nil interface value
from a non-nil interface wrapping a typed nil pointer: converting a nil
pointer of a concrete writer type (such as the nil results that setup returns
on failure) into io.Writer yields an interface value that compares unequal to
nil.  nilIface is the nil interface; real e wraps a live object; nilPtr wraps
a typed nil pointer of a writer type whose method set includes Close. -/
inductive GoW where
  | nilIface
  | real (e : Endpoint)
  | nilPtr
deriving DecidableEq, Repr

/-- os.Stderr: a live file endpoint, fixed identity 0. -/
def stderrW : GoW := .real ⟨0, true⟩

/-- os.Stdout: a live file endpoint, fixed identity 1. -/
def stdoutW : GoW := .real ⟨1, true⟩

/-- The Go type switch in the closers loop of Init, source xlog.go lines
106-110: c, ok := w.(io.Closer); the entry is kept when ok and c != nil.
For the nil interface the assertion fails.  For a live object the assertion
succeeds exactly when its dynamic type has a Close method.  For a typed nil
pointer of a writer type the assertion succeeds (the type has Close) and the
resulting io.Closer interface value is non-nil, so the entry is kept. -/
def isCloser : GoW → Bool
  | .nilIface => false
  | .real e => e.closable
  | .nilPtr => true

/-- Logging levels, source xlog.go lines 15-24. -/
inductive log_level where
  | eFatal
  | eError
  | eWarn
  | eInfo
  | eTrace
deriving DecidableEq, Repr

/-- Logging tags, source xlog.go lines 27-33. -/
def tagFatal : String := "[F] "

def tagError : String := "[E] "

def tagWarn : String := "[W] "

def tagInfo : String := "[I] "

def tagTrace : String := "[T] "

/-- flags = log.Ldate | log.Lmicroseconds | log.Lshortfile = 1 | 4 | 16,
source xlog.go line 36. -/
def goFlags : Nat := Nat.lor 1 (Nat.lor 4 16)

/-- initText, source xlog.go line 37. -/
def initText : String := "Logging before logger.Init.\n"

/-- A Go log.Logger as built by log.New(w, pre, flag): the writer it owns
(here the ordered endpoint list handed to io.MultiWriter), the fixed text
prepended to every line, and the formatting flags. -/
structure GoLog where
  outs : List GoW
  tagPre : String
  flagsN : Nat
deriving DecidableEq, Repr

/-- The Logger struct, source xlog.go lines 133-141.  The field initialized
is rendered as inited (zero value false for the bootstrap logger). -/
structure Logger where
  logFatal : GoLog
  logError : GoLog
  logWarn : GoLog
  logInfo : GoLog
  logTrace : GoLog
  closers : List GoW
  inited : Bool
deriving DecidableEq, Repr

/-- The bootstrap default logger built by the package-private function
spelled i n i t i a l i z e in the source (xlog.go lines 45-53), installed at
process start: each severity writes to os.Stderr only, with initText plus the
severity tag as line text; closers and initialized keep their Go zero values
(nil and false). -/
def mkBootLogger : Logger :=
  { logFatal := ⟨[stderrW], initText ++ tagFatal, goFlags⟩
    logError := ⟨[stderrW], initText ++ tagError, goFlags⟩
    logWarn := ⟨[stderrW], initText ++ tagWarn, goFlags⟩
    logInfo := ⟨[stderrW], initText ++ tagInfo, goFlags⟩
    logTrace := ⟨[stderrW], initText ++ tagTrace, goFlags⟩
    closers := []
    inited := false }

/-- Outcome of one run of the platform adapter setup(src): on POSIX it opens
three syslog writers (info, warning, error class) or fails; on Windows it
opens three event-log writers or fails. -/
inductive AdapterOutcome where
  | ok (i w e : Endpoint)
  | fail (err : String)
deriving DecidableEq, Repr

/-- The assignment il, wl, el, syslogErr = setup(name) in Init (xlog.go line
76) together with the setup implementations (syslog adapter, and
xlog_windows.go): on success the three concrete writer pointers are live
objects; on failure setup returns nil, nil, nil, err, and each returned nil
is a typed nil pointer (nil *syslog.Writer, or nil *writer on Windows) which
the multiple assignment converts into a NON-nil io.Writer interface value
wrapping a typed nil pointer. -/
def setupRun (name : String) (ad : AdapterOutcome) : GoW × GoW × GoW × Option String :=
  match name, ad with
  | _, .ok i w e => (.real i, .real w, .real e, none)
  | _, .fail err => (.nilPtr, .nilPtr, .nilPtr, some err)

/-- The head of Init, xlog.go lines 72-77: var il, wl, el io.Writer starts
the three slots at the nil interface; they are overwritten by setup only when
systemLog is true. -/
def sysSlots (name : String) (systemLog : Bool) (ad : AdapterOutcome) :
    GoW × GoW × GoW × Option String :=
  if systemLog then setupRun name ad else (.nilIface, .nilIface, .nilIface, none)

/-- Init, xlog.go lines 72-111: the construction of the Logger value (list
assembly, the five log.New calls, the closers loop, initialized = true).  The
registry update and the syslog-error emission of lines 113-123 are modelled
separately (InitTail).  logFile is the caller-supplied sink; ad is the
behavior the platform adapter would exhibit if invoked. -/
def InitL (name : String) (verbose systemLog : Bool) (logFile : Endpoint)
    (ad : AdapterOutcome) : Logger :=
  let s := sysSlots name systemLog ad
  let il := s.1
  let wl := s.2.1
  let el := s.2.2.1
  let iLogs := [GoW.real logFile]
  let wLogs := [GoW.real logFile]
  let eLogs := [GoW.real logFile]
  let iLogs := if il ≠ .nilIface then iLogs ++ [il] else iLogs
  let wLogs := if wl ≠ .nilIface then wLogs ++ [wl] else wLogs
  let eLogs := if el ≠ .nilIface then eLogs ++ [el] else eLogs
  let eLogs := eLogs ++ [stderrW]
  let iLogs := if verbose then iLogs ++ [stdoutW] else iLogs
  let wLogs := if verbose then wLogs ++ [stdoutW] else wLogs
  { logFatal := ⟨eLogs, tagFatal, goFlags⟩
    logError := ⟨eLogs, tagError, goFlags⟩
    logWarn := ⟨wLogs, tagWarn, goFlags⟩
    logInfo := ⟨iLogs, tagInfo, goFlags⟩
    logTrace := ⟨iLogs, tagTrace, goFlags⟩
    closers := ([GoW.real logFile, il, wl, el]).foldl
      (fun acc w => if isCloser w then acc ++ [w] else acc) []
    inited := true }

/-- The list a non-nil slot contributes to an endpoint list: the three
conditional appends of xlog.go lines 82-90 add the slot exactly when the
interface value compares unequal to nil. -/
def optSlot (w : GoW) : List GoW := if w = .nilIface then [] else [w]

/-- Behavior of one Write call on one endpoint for a given byte sequence
(modelled as a String): the pair (n, err) that Go Write returns. -/
abbrev WriteFn := String → Nat × Option String

/-- A writer whose Write fails outright. -/
def wErr : WriteFn := fun _ => (0, some "write error")

/-- A writer whose Write succeeds in full. -/
def wOk : WriteFn := fun s => (s.length, none)

/-- io.MultiWriter Write from the Go standard library, the fan-out writer
that Init installs for every severity: iterate the writers in order; return
at the first Write that yields an error; a Write that returns n < len(p)
without an error yields io.ErrShortWrite and also returns; when the loop
completes return (len(p), nil).  The loop is instrumented with the number of
writers whose Write method was actually invoked (the first component). -/
def multiWriteGo : List WriteFn → String → Nat × Nat × Option String
  | [], s => (0, s.length, none)
  | w :: ws, s =>
    match (w s).2 with
    | some err => (1, (w s).1, some err)
    | none =>
      if (w s).1 ≠ s.length then (1, (w s).1, some "short write")
      else
        let r := multiWriteGo ws s
        (r.1 + 1, r.2)

/-- A writer fails the MultiWriter loop on s when its Write returns an error
or writes fewer bytes than requested. -/
def failsOn (w : WriteFn) (s : String) : Bool :=
  (w s).2.isSome || decide ((w s).1 ≠ s.length)

/-- Index of the first writer in the list whose Write fails on s. -/
def firstFailIdx : List WriteFn → String → Option Nat
  | [], _ => none
  | w :: ws, s => if failsOn w s then some 0 else (firstFailIdx ws s).map (· + 1)

/-- The same MultiWriter loop executed over interface writer values, with the
write behavior of each live endpoint resolved through env by its identity.
Result: (identities successfully written in full, the (n, err) pair the Write
call returns, panic message when execution panics instead of returning).
Calling Write through a nil interface value or on a typed nil writer pointer
dereferences nil and panics the goroutine. -/
def mwRun : List GoW → (Nat → WriteFn) → String →
    List Nat × (Nat × Option String) × Option String
  | [], _, s => ([], (s.length, none), none)
  | .real e :: ws, env, s =>
    match (env e.id s).2 with
    | some err => ([], ((env e.id s).1, some err), none)
    | none =>
      if (env e.id s).1 ≠ s.length then ([], ((env e.id s).1, some "short write"), none)
      else
        let r := mwRun ws env s
        (e.id :: r.1, r.2)
  | .nilPtr :: _, _, _ => ([], (0, none), some "nil pointer dereference")
  | .nilIface :: _, _, _ => ([], (0, none), some "nil pointer dereference")

/-- The physical identity behind an interface writer (0 for the nil cases,
which never carry an object). -/
def idOf : GoW → Nat
  | .real e => e.id
  | .nilIface => 0
  | .nilPtr => 0

/-- The log.Logger instance that the switch in Logger.output selects for a
level, source xlog.go lines 146-159.  The switch enumerates every constructor
of the closed enum log_level, so its default panic branch is unreachable and
has no counterpart here. -/
def selLog (l : Logger) : log_level → GoLog
  | .eFatal => l.logFatal
  | .eError => l.logError
  | .eWarn => l.logWarn
  | .eInfo => l.logInfo
  | .eTrace => l.logTrace

/-- The severity tag each GoLog of an Init-built Logger carries. -/
def tagOf : log_level → String
  | .eFatal => tagFatal
  | .eError => tagError
  | .eWarn => tagWarn
  | .eInfo => tagInfo
  | .eTrace => tagTrace

/-- The line that log.Logger.Output(calldepth, s) assembles and hands to ONE
Write call on its writer: the fixed tagPre text, then the flag-driven header
(date, time, file:line, which depend on the clock and the call site and are
abstracted into hdr), then s.  Output appends a newline when s lacks one;
that is absorbed into txt.  With goFlags (no Lmsgprefix bit) tagPre stands
before the header. -/
def mkLine (g : GoLog) (hdr txt : String) : String := g.tagPre ++ hdr ++ txt

/-- How a call of Logger.output terminates. -/
inductive OutCome where
  | blocked
  | panicked (msg : String)
  | ret
deriving DecidableEq, Repr

/-- Logger.output (source xlog.go lines 143-160) run against endpoint write
behaviors env.  output first acquires logLock (line 144); sync.Mutex is not
reentrant, so when the calling goroutine already holds logLock the
acquisition blocks forever (blocked).  Otherwise the selected log.Logger
formats the line and performs one Write on its MultiWriter: a nil writer in
the list panics the goroutine; any error result of the Write is discarded by
output (the switch arms ignore the Output return value), so the call returns
normally. -/
def outputExec (lockHeld : Bool) (l : Logger) (lvl : log_level) (hdr txt : String)
    (env : Nat → WriteFn) : OutCome :=
  if lockHeld then .blocked
  else
    match (mwRun (selLog l lvl).outs env (mkLine (selLog l lvl) hdr txt)).2.2 with
    | some m => .panicked m
    | none => .ret

/-- The io.Closer invocations one Logger.Close call performs, in order
(source xlog.go lines 165-178): nothing when initialized is false, otherwise
c.Close() once per entry of the closers slice.  Close collects no state: it
neither clears closers nor resets initialized, and a close error is printed
to os.Stderr; Close itself has no return value, so no error ever reaches the
caller. -/
def closeRun (l : Logger) : List GoW :=
  if l.inited then l.closers else []

/-- The Logger value after Logger.Close returns: Close mutates no field of
the Logger (it does not clear closers, reset initialized, or replace the five
log.Logger instances); only the operating-system state of the closed
endpoints changes, which is modelled by the env argument of outputExec. -/
def closeStateAfter (l : Logger) : Logger := l

/-- Observable events of the lifecycle and emission operations. -/
inductive Ev where
  | out (lvl : log_level) (depth : Nat) (txt : String)
  | closeEv (c : GoW)
  | exit (code : Nat)
deriving DecidableEq, Repr

/-- The event trace of one Logger.Close call. -/
def closeEvs (l : Logger) : List Ev := (closeRun l).map Ev.closeEv

/-- fmt.Sprint over string operands: Go inserts a space only between two
operands when neither is a string, so string operands are concatenated. -/
def sprint (v : List String) : String := String.join v

/-- fmt.Sprintln over string operands: operands are space separated and a
newline is appended. -/
def sprintln (v : List String) : String := String.intercalate " " v ++ "\n"

/-- The tail of Init, source xlog.go lines 111-123, after the Logger l has
been built: under logLock, replace the default-logger registry value when the
current value is not initialized; then, STILL under logLock (the deferred
Unlock of line 114 only runs when Init returns), execute
if syslogErr != nil then Error(syslogErr), which calls output on the (possibly
new) default logger.  Result: the new registry value, and the outcome of that
emission (ret when there is no syslog error to report). -/
def InitTail (reg l : Logger) (syslogErr : Option String) (env : Nat → WriteFn) :
    Logger × OutCome :=
  let reg2 := if !reg.inited then l else reg
  match syslogErr with
  | some err => (reg2, outputExec true reg2 .eError "" err env)
  | none => (reg2, .ret)

/-- Logger.Trace, source xlog.go lines 182-184: one output call at eTrace,
depth 0, text fmt.Sprint(v...).  The trace records the output call the method
performs on its receiver l. -/
def LoggerTrace (l : Logger) (v : List String) : List Ev :=
  [Ev.out .eTrace 0 (sprint v)]

/-- Logger.TraceDepth, source xlog.go lines 188-190. -/
def LoggerTraceDepth (l : Logger) (depth : Nat) (v : List String) : List Ev :=
  [Ev.out .eTrace depth (sprint v)]

/-- Logger.Info, source xlog.go lines 206-208. -/
def LoggerInfo (l : Logger) (v : List String) : List Ev :=
  [Ev.out .eInfo 0 (sprint v)]

/-- Logger.InfoDepth, source xlog.go lines 212-214. -/
def LoggerInfoDepth (l : Logger) (depth : Nat) (v : List String) : List Ev :=
  [Ev.out .eInfo depth (sprint v)]

/-- Logger.Warning, source xlog.go lines 230-232. -/
def LoggerWarning (l : Logger) (v : List String) : List Ev :=
  [Ev.out .eWarn 0 (sprint v)]

/-- Logger.WarningDepth, source xlog.go lines 236-238. -/
def LoggerWarningDepth (l : Logger) (depth : Nat) (v : List String) : List Ev :=
  [Ev.out .eWarn depth (sprint v)]

/-- Logger.Error, source xlog.go lines 254-256. -/
def LoggerError (l : Logger) (v : List String) : List Ev :=
  [Ev.out .eError 0 (sprint v)]

/-- Logger.ErrorDepth, source xlog.go lines 260-262. -/
def LoggerErrorDepth (l : Logger) (depth : Nat) (v : List String) : List Ev :=
  [Ev.out .eError depth (sprint v)]

/-- Logger.Fatal, source xlog.go lines 278-282: output at eFatal, then
l.Close(), then os.Exit(1). -/
def LoggerFatal (l : Logger) (v : List String) : List Ev :=
  [Ev.out .eFatal 0 (sprint v)] ++ closeEvs l ++ [Ev.exit 1]

/-- Logger.FatalDepth, source xlog.go lines 286-290. -/
def LoggerFatalDepth (l : Logger) (depth : Nat) (v : List String) : List Ev :=
  [Ev.out .eFatal depth (sprint v)] ++ closeEvs l ++ [Ev.exit 1]

/-- Logger.Fatalln, source xlog.go lines 294-298. -/
def LoggerFatalln (l : Logger) (v : List String) : List Ev :=
  [Ev.out .eFatal 0 (sprintln v)] ++ closeEvs l ++ [Ev.exit 1]

/-- Logger.Fatalf, source xlog.go lines 302-306.  The fmt.Sprintf collaborator
is abstracted: ftxt stands for fmt.Sprintf(format, v...). -/
def LoggerFatalf (l : Logger) (ftxt : String) : List Ev :=
  [Ev.out .eFatal 0 ftxt] ++ closeEvs l ++ [Ev.exit 1]

/-- Package-level Trace, source xlog.go lines 319-321, acting on the current
default-logger registry value reg. -/
def pkgTrace (reg : Logger) (v : List String) : List Ev :=
  [Ev.out .eTrace 0 (sprint v)]

/-- Package-level TraceDepth, source xlog.go lines 325-327. -/
def pkgTraceDepth (reg : Logger) (depth : Nat) (v : List String) : List Ev :=
  [Ev.out .eTrace depth (sprint v)]

/-- Package-level Info, source xlog.go lines 343-345. -/
def pkgInfo (reg : Logger) (v : List String) : List Ev :=
  [Ev.out .eInfo 0 (sprint v)]

/-- Package-level InfoDepth, source xlog.go lines 349-351. -/
def pkgInfoDepth (reg : Logger) (depth : Nat) (v : List String) : List Ev :=
  [Ev.out .eInfo depth (sprint v)]

/-- Package-level Warning, source xlog.go lines 367-369. -/
def pkgWarning (reg : Logger) (v : List String) : List Ev :=
  [Ev.out .eWarn 0 (sprint v)]

/-- Package-level WarningDepth, source xlog.go lines 373-375. -/
def pkgWarningDepth (reg : Logger) (depth : Nat) (v : List String) : List Ev :=
  [Ev.out .eWarn depth (sprint v)]

/-- Package-level Error, source xlog.go lines 391-393. -/
def pkgError (reg : Logger) (v : List String) : List Ev :=
  [Ev.out .eError 0 (sprint v)]

/-- Package-level ErrorDepth, source xlog.go lines 397-399. -/
def pkgErrorDepth (reg : Logger) (depth : Nat) (v : List String) : List Ev :=
  [Ev.out .eError depth (sprint v)]

/-- Package-level Fatal, source xlog.go lines 416-420: output at eFatal on
the default logger, then defaultLogger.Close(), then os.Exit(1). -/
def pkgFatal (reg : Logger) (v : List String) : List Ev :=
  [Ev.out .eFatal 0 (sprint v)] ++ closeEvs reg ++ [Ev.exit 1]

/-- Package-level FatalDepth, source xlog.go lines 424-428. -/
def pkgFatalDepth (reg : Logger) (depth : Nat) (v : List String) : List Ev :=
  [Ev.out .eFatal depth (sprint v)] ++ closeEvs reg ++ [Ev.exit 1]

/-- Package-level Fatalln, source xlog.go lines 433-437. -/
def pkgFatalln (reg : Logger) (v : List String) : List Ev :=
  [Ev.out .eFatal 0 (sprintln v)] ++ closeEvs reg ++ [Ev.exit 1]

/-- Package-level Fatalf, source xlog.go lines 442-446; ftxt stands for
fmt.Sprintf(format, v...). -/
def pkgFatalf (reg : Logger) (ftxt : String) : List Ev :=
  [Ev.out .eFatal 0 ftxt] ++ closeEvs reg ++ [Ev.exit 1]

/-- Whether an event is the process-exit event. -/
def isExit : Ev → Bool
  | .exit _ => true
  | _ => false

/-- The argument tuple of one Init call. -/
structure InitArgs where
  name : String
  verbose : Bool
  systemLog : Bool
  logFile : Endpoint
  ad : AdapterOutcome
deriving DecidableEq, Repr

/-- The Logger value an Init call with these arguments constructs. -/
def applyInit (a : InitArgs) : Logger :=
  InitL a.name a.verbose a.systemLog a.logFile a.ad

/-- The default-logger registry: the package variable defaultLogger (xlog.go
lines 40-43).  Go pointers are modelled by allocation numbers: slotPtr is the
allocation the registry pointer currently refers to (0 is the bootstrap
logger allocated at process start), slotVal its Logger value, and nextPtr the
next fresh allocation number. -/
structure Registry where
  slotPtr : Nat
  slotVal : Logger
  nextPtr : Nat
deriving DecidableEq, Repr

/-- The registry at process start: the bootstrap logger, allocation 0. -/
def regStart : Registry := ⟨0, mkBootLogger, 1⟩

/-- One Init call seen by the registry, xlog.go lines 98-117: a fresh Logger
value l is allocated (allocation number p) with initialized = true; under
logLock, if !defaultLogger.initialized then defaultLogger = &l.  Returns the
new registry and the (pointer, value) pair Init returns to its caller. -/
def initStepR (r : Registry) (a : InitArgs) : Registry × (Nat × Logger) :=
  let l := applyInit a
  let p := r.nextPtr
  let r2 : Registry := if !r.slotVal.inited then ⟨p, l, p + 1⟩ else ⟨r.slotPtr, r.slotVal, p + 1⟩
  (r2, (p, l))

/-- A sequence of Init calls run against the registry, returning the final
registry and every (pointer, Logger) pair returned along the way. -/
def runInitsR : Registry → List InitArgs → Registry × List (Nat × Logger)
  | r, [] => (r, [])
  | r, a :: as =>
    let s := initStepR r a
    let t := runInitsR s.1 as
    (t.1, s.2 :: t.2)

/-! Helper lemmas: closed forms of the five endpoint lists Init assembles. -/

theorem initL_logFatal_outs (name : String) (verbose systemLog : Bool) (lf : Endpoint)
    (ad : AdapterOutcome) :
    (InitL name verbose systemLog lf ad).logFatal.outs
      = [GoW.real lf] ++ optSlot (sysSlots name systemLog ad).2.2.1 ++ [stderrW] := by
  cases systemLog <;> cases ad <;>
    simp [InitL, sysSlots, setupRun, optSlot]

theorem initL_logError_outs (name : String) (verbose systemLog : Bool) (lf : Endpoint)
    (ad : AdapterOutcome) :
    (InitL name verbose systemLog lf ad).logError.outs
      = [GoW.real lf] ++ optSlot (sysSlots name systemLog ad).2.2.1 ++ [stderrW] := by
  cases systemLog <;> cases ad <;>
    simp [InitL, sysSlots, setupRun, optSlot]

theorem initL_logWarn_outs (name : String) (verbose systemLog : Bool) (lf : Endpoint)
    (ad : AdapterOutcome) :
    (InitL name verbose systemLog lf ad).logWarn.outs
      = [GoW.real lf] ++ optSlot (sysSlots name systemLog ad).2.1
          ++ (if verbose then [stdoutW] else []) := by
  cases systemLog <;> cases ad <;> cases verbose <;>
    simp [InitL, sysSlots, setupRun, optSlot]

theorem initL_logInfo_outs (name : String) (verbose systemLog : Bool) (lf : Endpoint)
    (ad : AdapterOutcome) :
    (InitL name verbose systemLog lf ad).logInfo.outs
      = [GoW.real lf] ++ optSlot (sysSlots name systemLog ad).1
          ++ (if verbose then [stdoutW] else []) := by
  cases systemLog <;> cases ad <;> cases verbose <;>
    simp [InitL, sysSlots, setupRun, optSlot]

theorem initL_logTrace_outs (name : String) (verbose systemLog : Bool) (lf : Endpoint)
    (ad : AdapterOutcome) :
    (InitL name verbose systemLog lf ad).logTrace.outs
      = (InitL name verbose systemLog lf ad).logInfo.outs := rfl

/-- C1: for every call Init(name, verbose, systemLog, logFile) the five
per-severity endpoint lists are assembled exactly as specified, with present
meaning the interface slot returned for the system log compares unequal to
nil: Error and Fatal get [logFile, error-slot if present, console(stderr)]
with the console always last regardless of verbose; Warning gets [logFile,
warning-slot if present] plus console(stdout) iff verbose; Info and Trace get
[logFile, info-slot if present] plus console(stdout) iff verbose; logFile is
first in every list. -/
theorem c1_endpoint_lists (name : String) (verbose systemLog : Bool) (lf : Endpoint)
    (ad : AdapterOutcome) :
    ((InitL name verbose systemLog lf ad).logFatal.outs
        = [GoW.real lf] ++ optSlot (sysSlots name systemLog ad).2.2.1 ++ [stderrW])
  ∧ ((InitL name verbose systemLog lf ad).logError.outs
        = [GoW.real lf] ++ optSlot (sysSlots name systemLog ad).2.2.1 ++ [stderrW])
  ∧ ((InitL name verbose systemLog lf ad).logWarn.outs
        = [GoW.real lf] ++ optSlot (sysSlots name systemLog ad).2.1
            ++ (if verbose then [stdoutW] else []))
  ∧ ((InitL name verbose systemLog lf ad).logInfo.outs
        = [GoW.real lf] ++ optSlot (sysSlots name systemLog ad).1
            ++ (if verbose then [stdoutW] else []))
  ∧ ((InitL name verbose systemLog lf ad).logTrace.outs
        = (InitL name verbose systemLog lf ad).logInfo.outs) :=
  ⟨initL_logFatal_outs name verbose systemLog lf ad,
   initL_logError_outs name verbose systemLog lf ad,
   initL_logWarn_outs name verbose systemLog lf ad,
   initL_logInfo_outs name verbose systemLog lf ad,
   initL_logTrace_outs name verbose systemLog lf ad⟩

/-! Reduction lemmas for the MultiWriter loop. -/

theorem multiWriteGo_cons_err (w : WriteFn) (ws : List WriteFn) (s : String) (err : String)
    (hw : (w s).2 = some err) :
    multiWriteGo (w :: ws) s = (1, (w s).1, some err) := by
  simp [multiWriteGo, hw]

theorem multiWriteGo_cons_short (w : WriteFn) (ws : List WriteFn) (s : String)
    (hw : (w s).2 = none) (hlen : (w s).1 ≠ s.length) :
    multiWriteGo (w :: ws) s = (1, (w s).1, some "short write") := by
  simp [multiWriteGo, hw, hlen]

theorem multiWriteGo_cons_ok (w : WriteFn) (ws : List WriteFn) (s : String)
    (hw : (w s).2 = none) (hlen : (w s).1 = s.length) :
    multiWriteGo (w :: ws) s = ((multiWriteGo ws s).1 + 1, (multiWriteGo ws s).2) := by
  simp [multiWriteGo, hw, hlen]

/-- C2 counterexample: the fan-out writer io.MultiWriter does short-circuit.
With the two-writer list [wErr, wOk] and a failing first writer, only one of
the two writers receives a Write call, so a single write is NOT attempted on
every endpoint of the list: the failure at the first endpoint prevents the
write from being attempted at the endpoint that follows it. -/
theorem c2_counterexample :
    (multiWriteGo [wErr, wOk] "x").1 ≠ [wErr, wOk].length := by
  decide

/-- C2 amended: for every fan-out writer built from an ordered writer list, a
single write is attempted on the writers in list order only up to and
including the first writer whose Write fails (error or short write); a
failure at one writer prevents the write from being attempted on the writers
after it; when every writer succeeds in full, every writer is attempted and
the fan-out write returns (len, nil). -/
theorem c2_mw_short_circuit (ws : List WriteFn) (s : String) :
    ((multiWriteGo ws s).1 = (firstFailIdx ws s).elim ws.length (fun i => i + 1))
  ∧ ((∀ w ∈ ws, failsOn w s = false) → multiWriteGo ws s = (ws.length, s.length, none)) := by
  induction ws with
  | nil => exact ⟨rfl, fun _ => rfl⟩
  | cons w ws ih =>
    rcases hw : (w s).2 with _ | err
    · by_cases hlen : (w s).1 = s.length
      · have hfail : failsOn w s = false := by simp [failsOn, hw, hlen]
        constructor
        · rw [multiWriteGo_cons_ok w ws s hw hlen]
          have h1 := ih.1
          simp only [firstFailIdx, hfail, Bool.false_eq_true, if_false]
          rcases hfi : firstFailIdx ws s with _ | i <;>
            rw [hfi] at h1 <;> simp [h1]
        · intro hall
          rw [multiWriteGo_cons_ok w ws s hw hlen,
            ih.2 (fun w2 hw2 => hall w2 (List.mem_cons_of_mem w hw2))]
          rfl
      · have hfail : failsOn w s = true := by simp [failsOn, hw, hlen]
        constructor
        · rw [multiWriteGo_cons_short w ws s hw hlen]
          simp [firstFailIdx, hfail]
        · intro hall
          exact absurd (hall w (List.mem_cons_self w ws)) (by simp [hfail])
    · have hfail : failsOn w s = true := by simp [failsOn, hw]
      constructor
      · rw [multiWriteGo_cons_err w ws s err hw]
        simp [firstFailIdx, hfail]
      · intro hall
        exact absurd (hall w (List.mem_cons_self w ws)) (by simp [hfail])

/-- Witness for c2_mw_short_circuit: a one-writer list whose writer succeeds,
with the hypothesis discharged at this concrete input. -/
theorem c2_mw_short_circuit_witness :
    (∀ w ∈ [wOk], failsOn w "ab" = false) ∧ multiWriteGo [wOk] "ab" = (1, 2, none) := by
  have hp : ∀ w ∈ [wOk], failsOn w "ab" = false := by
    intro w hwmem
    rw [List.mem_singleton] at hwmem
    subst hwmem
    decide
  exact ⟨hp, (c2_mw_short_circuit [wOk] "ab").2 hp⟩

/-! The default-logger registry over a sequence of Init calls. -/

theorem applyInit_inited (a : InitArgs) : (applyInit a).inited = true := rfl

/-- Once the registry value is an initialized Logger, no later Init call
changes the slot; the calls keep returning fresh, distinct allocations. -/
theorem runInitsR_steady (as : List InitArgs) :
    ∀ r : Registry, r.slotVal.inited = true →
      (runInitsR r as).1.slotPtr = r.slotPtr
    ∧ (runInitsR r as).1.slotVal = r.slotVal
    ∧ (runInitsR r as).2.map Prod.fst = List.range' r.nextPtr as.length
    ∧ (runInitsR r as).2.all (fun pl => pl.2.inited) = true := by
  induction as with
  | nil =>
    intro r h
    simp [runInitsR]
  | cons a as ih =>
    intro r h
    have hstep : initStepR r a = (⟨r.slotPtr, r.slotVal, r.nextPtr + 1⟩, (r.nextPtr, applyInit a)) := by
      simp [initStepR, h]
    have hrest := ih ⟨r.slotPtr, r.slotVal, r.nextPtr + 1⟩ h
    simp only [runInitsR, hstep]
    refine ⟨hrest.1, hrest.2.1, ?_, ?_⟩
    · simp [hrest.2.2.1, List.range'_succ]
    · simp [hrest.2.2.2, applyInit_inited]

/-- C3: over every sequence of Init calls starting from the bootstrap
registry, the slot is replaced exactly by the first call (which observes the
non-initialized bootstrap logger) and by no later call: after every nonempty
prefix of the sequence the registry holds allocation 1, the first call's
Logger; the calls return pairwise distinct allocations, each holding a built
Logger with initialized = true (usable), and the registry value stays the
first call's Logger throughout. -/
theorem c3_registry_first_wins (a : InitArgs) (as : List InitArgs) :
    ((runInitsR regStart (a :: as)).1.slotPtr = 1)
  ∧ ((runInitsR regStart (a :: as)).1.slotVal = applyInit a)
  ∧ ((runInitsR regStart (a :: as)).2.map Prod.fst = List.range' 1 (as.length + 1))
  ∧ ((runInitsR regStart (a :: as)).2.map Prod.fst).Nodup
  ∧ ((runInitsR regStart (a :: as)).2.all (fun pl => pl.2.inited) = true)
  ∧ (∀ k : Nat, (runInitsR regStart ((a :: as).take (k + 1))).1.slotPtr = 1
        ∧ (runInitsR regStart ((a :: as).take (k + 1))).1.slotVal = applyInit a) := by
  have hstep : initStepR regStart a = (⟨1, applyInit a, 2⟩, (1, applyInit a)) := rfl
  have hgen : ∀ bs : List InitArgs,
      (runInitsR regStart (a :: bs)).1.slotPtr = 1
    ∧ (runInitsR regStart (a :: bs)).1.slotVal = applyInit a
    ∧ (runInitsR regStart (a :: bs)).2.map Prod.fst = List.range' 1 (bs.length + 1)
    ∧ (runInitsR regStart (a :: bs)).2.all (fun pl => pl.2.inited) = true := by
    intro bs
    have hrest := runInitsR_steady bs ⟨1, applyInit a, 2⟩ (applyInit_inited a)
    simp only [runInitsR, hstep]
    refine ⟨hrest.1, hrest.2.1, ?_, ?_⟩
    · simp [hrest.2.2.1, List.range'_succ]
    · simp [hrest.2.2.2, applyInit_inited]
  refine ⟨(hgen as).1, (hgen as).2.1, (hgen as).2.2.1, ?_, (hgen as).2.2.2, ?_⟩
  · rw [(hgen as).2.2.1]
    exact List.nodup_range' _ _
  · intro k
    rw [List.take_succ_cons]
    exact ⟨(hgen (as.take k)).1, (hgen (as.take k)).2.1⟩

/-! The closer set and Close. -/

theorem initL_inited (name : String) (verbose systemLog : Bool) (lf : Endpoint)
    (ad : AdapterOutcome) : (InitL name verbose systemLog lf ad).inited = true := rfl

theorem foldl_closer_filter (xs : List GoW) (acc : List GoW) :
    xs.foldl (fun acc w => if isCloser w then acc ++ [w] else acc) acc
      = acc ++ xs.filter isCloser := by
  induction xs generalizing acc with
  | nil => simp
  | cons x xs ih =>
    by_cases hx : isCloser x
    · simp [List.foldl_cons, hx, ih, List.filter_cons]
    · simp [List.foldl_cons, hx, ih, List.filter_cons]

theorem initL_closers (name : String) (verbose systemLog : Bool) (lf : Endpoint)
    (ad : AdapterOutcome) :
    (InitL name verbose systemLog lf ad).closers
      = ([GoW.real lf, (sysSlots name systemLog ad).1, (sysSlots name systemLog ad).2.1,
          (sysSlots name systemLog ad).2.2.1]).filter isCloser := by
  have h := foldl_closer_filter [GoW.real lf, (sysSlots name systemLog ad).1,
      (sysSlots name systemLog ad).2.1, (sysSlots name systemLog ad).2.2.1] []
  rw [List.nil_append] at h
  exact h

/-- C4 counterexample: the closers loop performs no identity deduplication.
When the caller sink is the same physical closable endpoint as the adapter's
error-class endpoint (identity 9), both slots enter the closer set and one
Close call releases that endpoint twice, not exactly once. -/
theorem c4_counterexample :
    ¬ ((closeRun (InitL "app" false true ⟨9, true⟩ (.ok ⟨11, true⟩ ⟨12, true⟩ ⟨9, true⟩))).count
        (GoW.real ⟨9, true⟩) = 1) := by
  decide

/-- C4 amended: the closer set is collected with one entry per slot of the
fixed four-element list [logFile, infoSlot, warnSlot, errSlot] that satisfies
io.Closer, with no deduplication by identity.  An endpoint referenced from
several per-severity endpoint lists is closed once per Close call only
because it occupies a single slot; whenever the collected closer entries are
pairwise distinct (as holds when the adapter endpoints are fresh and distinct
from the caller sink), one Close call releases each endpoint at most once. -/
theorem c4_closers_per_slot (name : String) (verbose systemLog : Bool) (lf : Endpoint)
    (ad : AdapterOutcome) :
    ((InitL name verbose systemLog lf ad).closers
        = ([GoW.real lf, (sysSlots name systemLog ad).1, (sysSlots name systemLog ad).2.1,
            (sysSlots name systemLog ad).2.2.1]).filter isCloser)
  ∧ ((InitL name verbose systemLog lf ad).closers.Nodup →
        ∀ c : GoW, (closeRun (InitL name verbose systemLog lf ad)).count c ≤ 1) := by
  refine ⟨initL_closers name verbose systemLog lf ad, ?_⟩
  intro hnd c
  have hrun : closeRun (InitL name verbose systemLog lf ad)
      = (InitL name verbose systemLog lf ad).closers := by
    simp [closeRun, initL_inited]
  rw [hrun]
  exact List.nodup_iff_count_le_one.mp hnd c

/-- Witness for c4_closers_per_slot at distinct concrete endpoints. -/
theorem c4_closers_per_slot_witness :
    (InitL "app" false true ⟨2, true⟩ (.ok ⟨3, true⟩ ⟨4, true⟩ ⟨5, true⟩)).closers.Nodup
  ∧ (closeRun (InitL "app" false true ⟨2, true⟩ (.ok ⟨3, true⟩ ⟨4, true⟩ ⟨5, true⟩))).count
      (GoW.real ⟨2, true⟩) ≤ 1 :=
  ⟨by decide,
   (c4_closers_per_slot "app" false true ⟨2, true⟩ (.ok ⟨3, true⟩ ⟨4, true⟩ ⟨5, true⟩)).2
     (by decide) (GoW.real ⟨2, true⟩)⟩

/-- C5 counterexample: Close does not record that it already ran (initialized
stays true, closers is not cleared), so the second of two Close calls invokes
the closable capability again on every endpoint the first call released: for
an Init-built Logger with closable caller sink 7, the two calls together
release the sink twice, not at most once. -/
theorem c5_counterexample :
    ¬ ((closeRun (InitL "a" false false ⟨7, true⟩ (.fail "e"))
        ++ closeRun (closeStateAfter (InitL "a" false false ⟨7, true⟩ (.fail "e")))).count
          (GoW.real ⟨7, true⟩) ≤ 1) := by
  decide

/-- C5 amended: two successive Close calls on an initialized Logger run the
close loop twice, releasing every endpoint of the closer set once per call
(twice in total); neither call raises an error to the caller, since Close has
no return value and close failures are only printed to stderr. -/
theorem c5_double_close (l : Logger) (h : l.inited = true) (c : GoW) :
    (closeRun l ++ closeRun (closeStateAfter l)).count c = 2 * l.closers.count c := by
  simp [closeRun, closeStateAfter, h, List.count_append, two_mul]

/-- Witness for c5_double_close at a concrete Logger. -/
theorem c5_double_close_witness :
    (InitL "b" false false ⟨3, true⟩ (.fail "e")).inited = true
  ∧ (closeRun (InitL "b" false false ⟨3, true⟩ (.fail "e"))
      ++ closeRun (closeStateAfter (InitL "b" false false ⟨3, true⟩ (.fail "e")))).count
        (GoW.real ⟨3, true⟩)
      = 2 * (InitL "b" false false ⟨3, true⟩ (.fail "e")).closers.count (GoW.real ⟨3, true⟩) :=
  ⟨rfl, c5_double_close (InitL "b" false false ⟨3, true⟩ (.fail "e")) rfl (GoW.real ⟨3, true⟩)⟩

/-! Use after close, and the failing syslog path. -/

/-- Endpoint write behavior after the caller sink (identity 4) has been
closed: writes to it fail with the closed-file error; other endpoints accept
writes.  This is the environment a Close call leaves behind. -/
def envClosed4 : Nat → WriteFn := fun n s =>
  if n = 4 then (0, some "file already closed") else (s.length, none)

/-- C6, evaluated at the failing input (code bug): the doc comment of
Logger.Close states that once Close is called all future calls to the logger
will panic, and the spec repeats it, but nothing implements it: Close mutates
no Logger field, and output discards the Write error that the closed endpoint
returns.  For the Logger of Init("app", false, false, closable sink 4), after
Close, emission at every severity returns normally — it silently completes or
silently drops the record instead of crashing. -/
theorem c6_no_panic_after_close :
    (closeStateAfter (InitL "app" false false ⟨4, true⟩ (.fail "e"))
        = InitL "app" false false ⟨4, true⟩ (.fail "e"))
  ∧ (outputExec false (closeStateAfter (InitL "app" false false ⟨4, true⟩ (.fail "e")))
        .eTrace "h" "x" envClosed4 = .ret)
  ∧ (outputExec false (closeStateAfter (InitL "app" false false ⟨4, true⟩ (.fail "e")))
        .eInfo "h" "x" envClosed4 = .ret)
  ∧ (outputExec false (closeStateAfter (InitL "app" false false ⟨4, true⟩ (.fail "e")))
        .eWarn "h" "x" envClosed4 = .ret)
  ∧ (outputExec false (closeStateAfter (InitL "app" false false ⟨4, true⟩ (.fail "e")))
        .eError "h" "x" envClosed4 = .ret)
  ∧ (outputExec false (closeStateAfter (InitL "app" false false ⟨4, true⟩ (.fail "e")))
        .eFatal "h" "x" envClosed4 = .ret) := by
  refine ⟨rfl, ?_, ?_, ?_, ?_, ?_⟩ <;> decide

/-- Write behavior where every live endpoint accepts every write in full. -/
def envAllOk : Nat → WriteFn := fun _ s => (s.length, none)

/-- C7, evaluated at the failing input (code bug): when setup fails it
returns typed nil writer pointers, which the assignment into the io.Writer
variables il, wl, el turns into NON-nil interface values; the nil guards of
Init therefore do not skip them.  With a failing adapter (POSIX: syslog
unreachable) the info list is [sink, nilWriter] instead of the [sink] of the
systemLog-disabled case, the closer set contains a nil writer, the one
Error-level emission Init then attempts runs while Init itself still holds
logLock and so deadlocks, and even executed without the lock that emission
would dereference a nil writer and panic. -/
theorem c7_syslog_failure_bug :
    ((InitL "app" false true ⟨5, true⟩ (.fail "dial unix /dev/log: no such file")).logInfo.outs
        = [GoW.real ⟨5, true⟩, GoW.nilPtr])
  ∧ ((InitL "app" false false ⟨5, true⟩ (.fail "dial unix /dev/log: no such file")).logInfo.outs
        = [GoW.real ⟨5, true⟩])
  ∧ (GoW.nilPtr
        ∈ (InitL "app" false true ⟨5, true⟩ (.fail "dial unix /dev/log: no such file")).closers)
  ∧ ((InitTail mkBootLogger
        (InitL "app" false true ⟨5, true⟩ (.fail "dial unix /dev/log: no such file"))
        (sysSlots "app" true (.fail "dial unix /dev/log: no such file")).2.2.2 envAllOk).2
      = OutCome.blocked)
  ∧ (outputExec false (InitL "app" false true ⟨5, true⟩ (.fail "dial unix /dev/log: no such file"))
        .eError "h" "dial unix /dev/log: no such file" envAllOk
      = OutCome.panicked "nil pointer dereference") := by
  refine ⟨?_, ?_, ?_, ?_, ?_⟩ <;> decide

/-! Fatal ordering and the depth-zero identities. -/

theorem closeEvs_countP_exit (l : Logger) : (closeEvs l).countP isExit = 0 := by
  show ((closeRun l).map Ev.closeEv).countP isExit = 0
  induction closeRun l with
  | nil => rfl
  | cons c cs ih => simp [List.map_cons, List.countP_cons, isExit, ih]

/-- C8: every Fatal-severity variant, as a Logger method and as a
package-level function on the default logger, first performs the single
eFatal output call with its formatted text, then performs exactly the events
of Close on the same Logger, and terminates last — and only then — with exit
status 1, which is non-zero. -/
theorem c8_fatal_order (l reg : Logger) (v : List String) (d : Nat) (ftxt : String) :
    (LoggerFatal l v = Ev.out .eFatal 0 (sprint v) :: (closeEvs l ++ [Ev.exit 1]))
  ∧ (LoggerFatalDepth l d v = Ev.out .eFatal d (sprint v) :: (closeEvs l ++ [Ev.exit 1]))
  ∧ (LoggerFatalln l v = Ev.out .eFatal 0 (sprintln v) :: (closeEvs l ++ [Ev.exit 1]))
  ∧ (LoggerFatalf l ftxt = Ev.out .eFatal 0 ftxt :: (closeEvs l ++ [Ev.exit 1]))
  ∧ (pkgFatal reg v = LoggerFatal reg v)
  ∧ (pkgFatalDepth reg d v = LoggerFatalDepth reg d v)
  ∧ (pkgFatalln reg v = LoggerFatalln reg v)
  ∧ (pkgFatalf reg ftxt = LoggerFatalf reg ftxt)
  ∧ ((LoggerFatal l v).getLast? = some (Ev.exit 1))
  ∧ ((LoggerFatal l v).countP isExit = 1)
  ∧ ((LoggerFatal l v).dropLast = Ev.out .eFatal 0 (sprint v) :: closeEvs l)
  ∧ ((1 : Nat) ≠ 0) := by
  refine ⟨rfl, rfl, rfl, rfl, rfl, rfl, rfl, rfl, ?_, ?_, ?_, one_ne_zero⟩
  · show ((Ev.out .eFatal 0 (sprint v) :: closeEvs l) ++ [Ev.exit 1]).getLast? = _
    rw [List.getLast?_append_cons]
    rfl
  · show ((Ev.out .eFatal 0 (sprint v) :: closeEvs l) ++ [Ev.exit 1]).countP isExit = 1
    simp [List.countP_append, List.countP_cons, isExit, closeEvs_countP_exit]
  · show ((Ev.out .eFatal 0 (sprint v) :: closeEvs l) ++ [Ev.exit 1]).dropLast = _
    rw [List.dropLast_concat]

/-- C10: for every Logger, severity and argument list, the depth variant at
depth 0 performs exactly the same operation as the plain variant, both as
Logger methods and as package-level functions on the default logger. -/
theorem c10_depth_zero (l reg : Logger) (v : List String) :
    (LoggerTraceDepth l 0 v = LoggerTrace l v)
  ∧ (LoggerInfoDepth l 0 v = LoggerInfo l v)
  ∧ (LoggerWarningDepth l 0 v = LoggerWarning l v)
  ∧ (LoggerErrorDepth l 0 v = LoggerError l v)
  ∧ (LoggerFatalDepth l 0 v = LoggerFatal l v)
  ∧ (pkgTraceDepth reg 0 v = pkgTrace reg v)
  ∧ (pkgInfoDepth reg 0 v = pkgInfo reg v)
  ∧ (pkgWarningDepth reg 0 v = pkgWarning reg v)
  ∧ (pkgErrorDepth reg 0 v = pkgError reg v)
  ∧ (pkgFatalDepth reg 0 v = pkgFatal reg v) :=
  ⟨rfl, rfl, rfl, rfl, rfl, rfl, rfl, rfl, rfl, rfl⟩

/-! Tagged delivery to every configured endpoint. -/

/-- Whether an interface writer wraps a live object. -/
def isRealW : GoW → Bool
  | .real _ => true
  | .nilIface => false
  | .nilPtr => false

theorem initL_ok_all_real (name : String) (verbose systemLog : Bool) (lf i w e : Endpoint)
    (S : log_level) :
    ((selLog (InitL name verbose systemLog lf (.ok i w e)) S).outs.all isRealW) = true := by
  cases S <;> cases systemLog <;> cases verbose <;> rfl

theorem initL_tagPre (name : String) (verbose systemLog : Bool) (lf : Endpoint)
    (ad : AdapterOutcome) (S : log_level) :
    (selLog (InitL name verbose systemLog lf ad) S).tagPre = tagOf S := by
  cases S <;> rfl

/-- When every writer in the list is a live endpoint and the environment
accepts every write in full, the MultiWriter loop delivers the line to every
endpoint of the list in order and returns (len, nil) without panicking. -/
theorem mwRun_all_ok (ws : List GoW) (env : Nat → WriteFn) (s : String)
    (hreal : ws.all isRealW = true) (henv : ∀ n t, env n t = (t.length, none)) :
    mwRun ws env s = (ws.map idOf, (s.length, none), none) := by
  induction ws with
  | nil => simp [mwRun]
  | cons x ws ih =>
    cases x with
    | real ep =>
      have hrest : ws.all isRealW = true := by
        simpa [List.all_cons, isRealW] using hreal
      simp [mwRun, henv, ih hrest, idOf]
    | nilIface => simp [List.all_cons, isRealW] at hreal
    | nilPtr => simp [List.all_cons, isRealW] at hreal

/-- C9: for every severity S and every Logger built by Init with a working
adapter (or with the system log disabled), an emission at S hands the
MultiWriter of S one line equal to the tag of S followed by the header and
text, and — when every endpoint accepts the write — that line is written to
every endpoint configured for S, in list order; the tags are exactly "[F] ",
"[E] ", "[W] ", "[I] ", "[T] ". -/
theorem c9_tagged_delivery (name : String) (verbose systemLog : Bool) (lf i w e : Endpoint)
    (hdr txt : String) (env : Nat → WriteFn) (S : log_level)
    (henv : ∀ n t, env n t = (t.length, none)) :
    ((mwRun (selLog (InitL name verbose systemLog lf (.ok i w e)) S).outs env
        (mkLine (selLog (InitL name verbose systemLog lf (.ok i w e)) S) hdr txt)).1
      = (selLog (InitL name verbose systemLog lf (.ok i w e)) S).outs.map idOf)
  ∧ (mkLine (selLog (InitL name verbose systemLog lf (.ok i w e)) S) hdr txt
      = tagOf S ++ (hdr ++ txt))
  ∧ tagOf .eFatal = "[F] " ∧ tagOf .eError = "[E] " ∧ tagOf .eWarn = "[W] "
  ∧ tagOf .eInfo = "[I] " ∧ tagOf .eTrace = "[T] " := by
  refine ⟨?_, ?_, rfl, rfl, rfl, rfl, rfl⟩
  · rw [mwRun_all_ok (selLog (InitL name verbose systemLog lf (.ok i w e)) S).outs env
      (mkLine (selLog (InitL name verbose systemLog lf (.ok i w e)) S) hdr txt)
      (initL_ok_all_real name verbose systemLog lf i w e S) henv]
  · simp only [mkLine]
    rw [initL_tagPre, String.append_assoc]

/-- Witness for c9_tagged_delivery: concrete endpoints, severity Warning,
verbose on, all-success environment. -/
theorem c9_tagged_delivery_witness :
    ((mwRun (selLog (InitL "app" true true ⟨2, true⟩ (.ok ⟨3, true⟩ ⟨4, true⟩ ⟨5, true⟩)) .eWarn).outs
        envAllOk
        (mkLine (selLog (InitL "app" true true ⟨2, true⟩ (.ok ⟨3, true⟩ ⟨4, true⟩ ⟨5, true⟩)) .eWarn)
          "H" "x")).1
      = (selLog (InitL "app" true true ⟨2, true⟩ (.ok ⟨3, true⟩ ⟨4, true⟩ ⟨5, true⟩)) .eWarn).outs.map
          idOf)
  ∧ (mkLine (selLog (InitL "app" true true ⟨2, true⟩ (.ok ⟨3, true⟩ ⟨4, true⟩ ⟨5, true⟩)) .eWarn)
        "H" "x"
      = tagOf .eWarn ++ ("H" ++ "x"))
  ∧ tagOf .eFatal = "[F] " ∧ tagOf .eError = "[E] " ∧ tagOf .eWarn = "[W] "
  ∧ tagOf .eInfo = "[I] " ∧ tagOf .eTrace = "[T] " :=
  c9_tagged_delivery "app" true true ⟨2, true⟩ ⟨3, true⟩ ⟨4, true⟩ ⟨5, true⟩ "H" "x" envAllOk
    .eWarn (fun _ _ => rfl)

end Xlog
